import Mathlib

/-!
Shallow embedding of the ai-chat server core: the in-memory domain store
(`src/server/storage.ts`), the API-key masking helper and the
`POST /api/messages` orchestrator (`src/unnamed/part_002`, which imports
`generateResponse` from `src/server/openai.ts`), and the socket broadcast
fan-out. Machine integers are modelled as `Nat`; JS strings as `String`
(or `List Char` for the character-level masking function); fallible JS
operations return `Option`; the external provider HTTP call is an oracle
parameter.
-/

namespace AIChat

/-- A registered user (`users` map entry): id and username. -/
structure User where
  id : Nat
  username : String
  deriving Repr, DecidableEq

/-- An AI provider record (`providers` map entry in `storage.ts`). -/
structure AIProvider where
  id : Nat
  userId : Nat
  name : String
  baseUrl : String
  apiKey : String
  isActive : Bool
  deriving Repr, DecidableEq

/-- A model record (`models` map entry): `modelId` is the provider-side
model string, `providerId` the owning provider's numeric id. -/
structure AIModel where
  id : Nat
  providerId : Nat
  name : String
  modelId : String
  isDefault : Bool
  deriving Repr, DecidableEq

/-- A chat record (`chats` map entry); only the fields the orchestrator
reads are modelled (`id`, `userId`, `modelId`, `name`). -/
structure Chat where
  id : Nat
  userId : Nat
  modelId : Nat
  name : String
  deriving Repr, DecidableEq

/-- A persisted message (`messages` map entry). `createdAt` is a logical
timestamp (the store's clock value at creation). -/
structure Message where
  id : Nat
  chatId : Nat
  role : String
  content : String
  createdAt : Nat
  deriving Repr, DecidableEq

/-- The parsed body of a `POST /api/messages` request
(`insertMessageSchema.parse(req.body)`): chat id, role and content. -/
structure InsertMessage where
  chatId : Nat
  role : String
  content : String
  deriving Repr, DecidableEq

/-- An interaction-log entry as built by the orchestrator's
`storage.createLog` calls. -/
structure InteractionLog where
  timestamp : Nat
  username : String
  modelName : String
  providerUrl : String
  chatTitle : String
  messageSent : String
  messageReceived : String
  status : String
  errorMessage : Option String
  deriving Repr, DecidableEq

/-- The in-memory store (`MemStorage` in `storage.ts`). The JS `Map`s are
modelled as lists (insertion order); `currentMessageId` is the message id
counter, `now` a logical clock standing in for `new Date()`. -/
structure MemStorage where
  providers : List AIProvider
  models : List AIModel
  chats : List Chat
  messages : List Message
  logs : List InteractionLog
  currentMessageId : Nat
  now : Nat
  deriving Repr, DecidableEq

/-- `MemStorage.getProvider(id)`: `this.providers.get(id)`. -/
def getProvider (st : MemStorage) (id : Nat) : Option AIProvider :=
  st.providers.find? (fun p => p.id == id)

/-- `MemStorage.getModel(id)`: `this.models.get(id)`. -/
def getModel (st : MemStorage) (id : Nat) : Option AIModel :=
  st.models.find? (fun m => m.id == id)

/-- `MemStorage.getModels(providerId)`: filter the `models` map by
`model.providerId === providerId`. -/
def getModels (st : MemStorage) (providerId : Nat) : List AIModel :=
  st.models.filter (fun m => m.providerId == providerId)

/-- `MemStorage.deleteProvider(id)`: `this.providers.delete(id)`; only the
`providers` map is touched. -/
def deleteProvider (st : MemStorage) (id : Nat) : MemStorage :=
  { st with providers := st.providers.filter (fun p => p.id != id) }

/-- `MemStorage.getChat(id)`: `this.chats.get(id)`. -/
def getChat (st : MemStorage) (id : Nat) : Option Chat :=
  st.chats.find? (fun c => c.id == id)

/-- `MemStorage.createMessage(message)`: take a fresh id from
`currentIds.message`, stamp `createdAt`, insert into the `messages` map. -/
def createMessage (st : MemStorage) (m : InsertMessage) : Message × MemStorage :=
  let msg : Message :=
    { id := st.currentMessageId, chatId := m.chatId, role := m.role
      content := m.content, createdAt := st.now }
  (msg,
    { st with
        messages := st.messages ++ [msg]
        currentMessageId := st.currentMessageId + 1
        now := st.now + 1 })

/-- `storage.createLog(entry)`: append an entry to the interaction log. -/
def createLog (st : MemStorage) (entry : InteractionLog) : MemStorage :=
  { st with logs := st.logs ++ [entry] }

/-- Modelled from the spec: `storage.getLogs` (its implementation is not
among the source files; only its call site in the `GET /api/logs` handler
is). Per the spec the InteractionLog is an append-only audit trail with
one record per completion attempt, and `getLogs` takes no user argument,
so it returns the full collection. -/
def getLogs (st : MemStorage) : List InteractionLog :=
  st.logs

/-- JS `s.slice(0, 4)` on a string viewed as its character list. -/
def jsSliceFirst4 (s : List Char) : List Char :=
  s.take 4

/-- JS `s.slice(-4)`: start index `max (length - 4) 0`, i.e. `Nat`
truncated subtraction. -/
def jsSliceLast4 (s : List Char) : List Char :=
  s.drop (s.length - 4)

/-- JS `c.repeat(n)` with an `Int` count: throws `RangeError` for a
negative count (modelled as `none`), else the `n`-fold repetition. -/
def jsRepeat (c : Char) (n : Int) : Option (List Char) :=
  if n < 0 then none else some (List.replicate n.toNat c)

/-- `extractApiKey(key)` from `routes.ts`:
`key.slice(0,4) + '*'.repeat(key.length - 8) + key.slice(-4)`; the
`repeat` throws (yields `none`) when `key.length - 8` is negative. -/
def extractApiKey (key : List Char) : Option (List Char) :=
  let firstPart := jsSliceFirst4 key
  let lastPart := jsSliceLast4 key
  match jsRepeat '*' ((key.length : Int) - 8) with
  | none => none
  | some mid => some (firstPart ++ mid ++ lastPart)

/-- The `ws` library's OPEN readyState constant. -/
def WS_OPEN : Nat := 1

/-- A live socket connection in the hub's client set: an identity
(standing for the JS object reference) and its transport readyState. -/
structure WsConn where
  id : Nat
  readyState : Nat
  deriving Repr, DecidableEq

/-- One broadcast over `wss.clients` (`POST /api/messages` broadcast and
the `document_update` relay): the connections that receive the payload
are exactly the registered ones distinct from the excluded connection
(when one is given, `client !== ws`) whose `readyState` is OPEN; every
other connection is skipped with no queueing, retry or error. -/
def publishDeliveries (clients : List WsConn) (excludeConn : Option WsConn) : List WsConn :=
  clients.filter (fun c =>
    (match excludeConn with
     | none => true
     | some w => c.id != w.id) && c.readyState == WS_OPEN)

/-- Outcome of the single outbound provider HTTP call
(`openai.chat.completions.create`): success carries the nullable
`choices[0].message.content`; failure carries the rejection's message
(network, auth or provider error). -/
inductive CompletionOutcome where
  | ok (content : Option String)
  | failed (message : String)
  deriving Repr, DecidableEq

/-- JS `a || b` for a nullable string `a`: the fallback is used when `a`
is null or the empty string (both falsy). -/
def jsStringOr (s : Option String) (fallback : String) : String :=
  match s with
  | none => fallback
  | some t => if t = "" then fallback else t

/-- The fixed text returned by the catch block of `generateResponse`. -/
def apologyText : String := "Sorry, I encountered an error processing your request."

/-- `generateResponse(message, modelId)` from `src/server/openai.ts`:
look up the model and provider (a missing record throws inside the try),
make the provider call, and return `content || "No response generated"`;
the surrounding catch converts every error - lookup failure or call
failure - into the apology string returned as a normal value, so the
promise never rejects. -/
def generateResponse (st : MemStorage) (call : CompletionOutcome)
    (_message : String) (modelId : Nat) : String :=
  match getModel st modelId with
  | none => apologyText
  | some model =>
    match getProvider st model.providerId with
    | none => apologyText
    | some _ =>
      match call with
      | .failed _ => apologyText
      | .ok content => jsStringOr content "No response generated"

/-- The observable HTTP outcome of the messages route: 404, 201 with a
JSON array of messages, or an unhandled exception escaping the handler. -/
inductive HttpResult where
  | notFound
  | created (body : List Message)
  | crash
  deriving Repr, DecidableEq

/-- A payload handed to the hub for broadcast: the `type` discriminator,
the chat id and the new message record. -/
structure WsEvent where
  type : String
  chatId : Nat
  message : Message
  deriving Repr, DecidableEq

/-- The part of the `POST /api/messages` handler that runs after the user
message was persisted (state `st1`): invoke `generateResponse`, persist
its return value as the assistant message, look up model and provider for
the log entry, append a `success` log, broadcast one `message` event and
respond 201 with both messages. A failed model or provider lookup throws
(`model.providerId` / `provider.baseUrl` on `undefined`); the route's
catch block repeats the same lookups before its own `createLog`, so the
exception is re-raised there and the handler crashes with no log entry
appended - the catch's `error` log is unreachable. -/
def handleCompletion (st1 : MemStorage) (chat : Chat) (user : User)
    (userMessage : Message) (body : InsertMessage) (call : CompletionOutcome) :
    HttpResult × MemStorage × List WsEvent :=
  let aiResponse := generateResponse st1 call body.content chat.modelId
  let aiMessage := (createMessage st1 ⟨chat.id, "assistant", aiResponse⟩).1
  let st2 := (createMessage st1 ⟨chat.id, "assistant", aiResponse⟩).2
  match getModel st2 chat.modelId with
  | none => (.crash, st2, [])
  | some model =>
    match getProvider st2 model.providerId with
    | none => (.crash, st2, [])
    | some provider =>
      (.created [userMessage, aiMessage],
        createLog st2 ⟨st2.now, user.username, model.name, provider.baseUrl, chat.name,
          body.content, aiResponse, "success", none⟩,
        [⟨"message", chat.id, aiMessage⟩])

/-- The `POST /api/messages` handler (after authentication and schema
parsing): look up the chat and check ownership (404 otherwise), persist
the inbound message as-is, then run the completion phase. -/
def postMessages (st : MemStorage) (user : User) (body : InsertMessage)
    (call : CompletionOutcome) : HttpResult × MemStorage × List WsEvent :=
  match getChat st body.chatId with
  | none => (.notFound, st, [])
  | some chat =>
    if chat.userId ≠ user.id then (.notFound, st, [])
    else
      handleCompletion (createMessage st body).2 chat user (createMessage st body).1 body call

/-- The `GET /api/logs` handler after its authentication guard: it
returns `storage.getLogs()` and never consults the requesting user. -/
def getLogsHandler (st : MemStorage) (_user : User) : List InteractionLog :=
  getLogs st

/-- The authenticated requesting user owning the sample chat. -/
def sampleUser : User := ⟨1, "alice"⟩

/-- The parsed body the client sends for chat 1: role is always `user`
(see `chat-interface.tsx` and `test-page.tsx`). -/
def sampleBody : InsertMessage := ⟨1, "user", "Hi"⟩

/-- A concrete one-user, one-provider, one-model, one-chat store used to
instantiate the theorems' hypotheses. -/
def sampleStore : MemStorage :=
  { providers := [⟨1, 1, "openai", "https://api.openai.com/v1", "sk-secret-key-123", true⟩]
    models := [⟨1, 1, "GPT-4o", "gpt-4o", false⟩]
    chats := [⟨1, 1, 1, "My chat"⟩]
    messages := []
    logs := []
    currentMessageId := 1
    now := 0 }

end AIChat

namespace AIChat

/-- Claim C7: for every secret of length `L ≥ 8`, masking succeeds and
returns a string of the same length whose first 4 and last 4 characters
equal those of the input and whose middle `L - 8` characters are all the
mask character `'*'`. -/
theorem extractApiKey_masks_long_secret (key : List Char) (hL : 8 ≤ key.length) :
    ∃ masked, extractApiKey key = some masked ∧
      masked.length = key.length ∧
      masked.take 4 = key.take 4 ∧
      masked.drop (masked.length - 4) = key.drop (key.length - 4) ∧
      (masked.drop 4).take (key.length - 8) = List.replicate (key.length - 8) '*' := by
  have hrep : ((key.length : Int) - 8) < 0 ↔ False := by
    simp only [iff_false, not_lt]
    omega
  refine ⟨jsSliceFirst4 key ++ List.replicate ((key.length : Int) - 8).toNat '*' ++
    jsSliceLast4 key, ?_, ?_, ?_, ?_, ?_⟩
  · simp [extractApiKey, jsRepeat, hrep]
  · have h4 : (jsSliceFirst4 key).length = 4 := by
      simp [jsSliceFirst4]; omega
    have hlast : (jsSliceLast4 key).length = 4 := by
      simp [jsSliceLast4]; omega
    simp only [List.length_append, h4, hlast, List.length_replicate]
    omega
  · have h4 : (jsSliceFirst4 key).length = 4 := by
      simp [jsSliceFirst4]; omega
    calc (jsSliceFirst4 key ++ List.replicate ((key.length : Int) - 8).toNat '*' ++
          jsSliceLast4 key).take 4
        = (jsSliceFirst4 key ++ (List.replicate ((key.length : Int) - 8).toNat '*' ++
          jsSliceLast4 key)).take (jsSliceFirst4 key).length := by
          rw [h4, List.append_assoc]
      _ = jsSliceFirst4 key := List.take_left _ _
      _ = key.take 4 := rfl
  · have hlen : (jsSliceFirst4 key ++ List.replicate ((key.length : Int) - 8).toNat '*').length
        = key.length - 4 := by
      simp [jsSliceFirst4]; omega
    have htot : (jsSliceFirst4 key ++ List.replicate ((key.length : Int) - 8).toNat '*' ++
        jsSliceLast4 key).length = key.length := by
      simp [jsSliceFirst4, jsSliceLast4]; omega
    rw [htot]
    calc (jsSliceFirst4 key ++ List.replicate ((key.length : Int) - 8).toNat '*' ++
          jsSliceLast4 key).drop (key.length - 4)
        = ((jsSliceFirst4 key ++ List.replicate ((key.length : Int) - 8).toNat '*') ++
          jsSliceLast4 key).drop (jsSliceFirst4 key ++
            List.replicate ((key.length : Int) - 8).toNat '*').length := by rw [hlen]
      _ = jsSliceLast4 key := List.drop_left _ _
      _ = key.drop (key.length - 4) := rfl
  · have h4 : (jsSliceFirst4 key).length = 4 := by
      simp [jsSliceFirst4]; omega
    have hdrop : (jsSliceFirst4 key ++ List.replicate ((key.length : Int) - 8).toNat '*' ++
        jsSliceLast4 key).drop 4
        = List.replicate ((key.length : Int) - 8).toNat '*' ++ jsSliceLast4 key := by
      rw [← h4, List.append_assoc]; exact List.drop_left _ _
    have hmid : ((key.length : Int) - 8).toNat = key.length - 8 := by omega
    rw [hdrop, hmid]
    calc (List.replicate (key.length - 8) '*' ++ jsSliceLast4 key).take (key.length - 8)
        = (List.replicate (key.length - 8) '*' ++ jsSliceLast4 key).take
            (List.replicate (key.length - 8) '*').length := by rw [List.length_replicate]
      _ = List.replicate (key.length - 8) '*' := List.take_left _ _

/-- Witness for C7 at the 12-character key `sk-abc123xyz`. -/
theorem extractApiKey_masks_long_secret_witness :
    8 ≤ (String.toList "sk-abc123xyz").length ∧
      ∃ masked, extractApiKey (String.toList "sk-abc123xyz") = some masked ∧
        masked.length = (String.toList "sk-abc123xyz").length ∧
        masked.take 4 = (String.toList "sk-abc123xyz").take 4 ∧
        masked.drop (masked.length - 4) =
          (String.toList "sk-abc123xyz").drop ((String.toList "sk-abc123xyz").length - 4) ∧
        (masked.drop 4).take ((String.toList "sk-abc123xyz").length - 8) =
          List.replicate ((String.toList "sk-abc123xyz").length - 8) '*' :=
  ⟨by decide, extractApiKey_masks_long_secret (String.toList "sk-abc123xyz") (by decide)⟩

/-- Claim C9: for every input of length strictly less than 8 the masking
function fails (the JS `repeat` count `L - 8` is negative, raising
`RangeError`), so masking is total only under the precondition `L ≥ 8`. -/
theorem extractApiKey_fails_on_short_secret (key : List Char) (hL : key.length < 8) :
    extractApiKey key = none := by
  have hrep : ((key.length : Int) - 8) < 0 := by omega
  simp [extractApiKey, jsRepeat, hrep]

/-- Witness for C9 at the 3-character key `abc`. -/
theorem extractApiKey_fails_on_short_secret_witness :
    (String.toList "abc").length < 8 ∧ extractApiKey (String.toList "abc") = none :=
  ⟨by decide, extractApiKey_fails_on_short_secret (String.toList "abc") (by decide)⟩

/-- Claim C10: `deleteProvider` does not cascade: for a provider id `p`
with registered models, deleting `p` leaves `getModels p` exactly as
before, and the `models` map is untouched (only `providers` changes). -/
theorem deleteProvider_keeps_models (st : MemStorage) (p : Nat)
    (_hmodels : getModels st p ≠ []) :
    getModels (deleteProvider st p) p = getModels st p ∧
      (deleteProvider st p).models = st.models := by
  exact ⟨rfl, rfl⟩

/-- Witness for C10: the sample store's provider 1 has one registered
model, and deleting provider 1 leaves `getModels 1` unchanged. -/
theorem deleteProvider_keeps_models_witness :
    getModels sampleStore 1 ≠ [] ∧
      getModels (deleteProvider sampleStore 1) 1 = getModels sampleStore 1 ∧
        (deleteProvider sampleStore 1).models = sampleStore.models :=
  ⟨by decide, deleteProvider_keeps_models sampleStore 1 (by decide)⟩

/-- Creating a message does not change the models map, so model lookups
are unaffected. -/
theorem getModel_createMessage (st : MemStorage) (m : InsertMessage) (i : Nat) :
    getModel (createMessage st m).2 i = getModel st i := rfl

/-- Creating a message does not change the providers map. -/
theorem getProvider_createMessage (st : MemStorage) (m : InsertMessage) (i : Nat) :
    getProvider (createMessage st m).2 i = getProvider st i := rfl

/-- Creating a message appends exactly the returned record. -/
theorem messages_createMessage (st : MemStorage) (m : InsertMessage) :
    (createMessage st m).2.messages = st.messages ++ [(createMessage st m).1] := rfl

/-- For a valid owned chat the handler persists the inbound message and
enters the completion phase on the extended state. -/
theorem postMessages_valid (st : MemStorage) (u : User) (body : InsertMessage)
    (call : CompletionOutcome) (chat : Chat)
    (hchat : getChat st body.chatId = some chat) (hown : chat.userId = u.id) :
    postMessages st u body call =
      handleCompletion (createMessage st body).2 chat u (createMessage st body).1 body call := by
  simp [postMessages, hchat, hown]

/-- Whatever branch the completion phase takes, the final message list is
the entry state's list extended by exactly the assistant record built
from the value `generateResponse` returned. -/
theorem handleCompletion_messages (st1 : MemStorage) (chat : Chat) (u : User)
    (um : Message) (body : InsertMessage) (call : CompletionOutcome) :
    (handleCompletion st1 chat u um body call).2.1.messages =
      st1.messages ++ [(createMessage st1 ⟨chat.id, "assistant",
        generateResponse st1 call body.content chat.modelId⟩).1] := by
  simp only [handleCompletion]
  split
  · rfl
  · split <;> rfl

/-- When the model and provider of the chat exist, the completion phase
evaluates to a 201 with both messages, a `success` log entry and one
`message` event, with the assistant content being whatever
`generateResponse` returned (`R`). -/
theorem handleCompletion_eval (st1 : MemStorage) (chat : Chat) (u : User)
    (um : Message) (body : InsertMessage) (call : CompletionOutcome)
    (model : AIModel) (provider : AIProvider) (R : String)
    (hR : generateResponse st1 call body.content chat.modelId = R)
    (hm : getModel st1 chat.modelId = some model)
    (hp : getProvider st1 model.providerId = some provider) :
    handleCompletion st1 chat u um body call =
      (.created [um, (createMessage st1 ⟨chat.id, "assistant", R⟩).1],
        createLog (createMessage st1 ⟨chat.id, "assistant", R⟩).2
          ⟨(createMessage st1 ⟨chat.id, "assistant", R⟩).2.now, u.username, model.name,
            provider.baseUrl, chat.name, body.content, R, "success", none⟩,
        [⟨"message", chat.id, (createMessage st1 ⟨chat.id, "assistant", R⟩).1⟩]) := by
  subst hR
  simp only [handleCompletion, getModel_createMessage, getProvider_createMessage, hm, hp]

end AIChat

namespace AIChat

/-- Claim C6: a send-message request whose chat id does not resolve, or
resolves to a chat owned by another user, is rejected with 404 and leaves
the storage state - messages, logs, everything - unchanged, publishing no
event. -/
theorem notfound_leaves_storage_unchanged (st : MemStorage) (u : User)
    (body : InsertMessage) (call : CompletionOutcome)
    (h : getChat st body.chatId = none ∨
      ∃ chat, getChat st body.chatId = some chat ∧ chat.userId ≠ u.id) :
    postMessages st u body call = (.notFound, st, []) := by
  rcases h with h | ⟨chat, hc, hne⟩
  · simp [postMessages, h]
  · simp [postMessages, hc, hne]

/-- Witness for C6: user 2 requests on chat 1, which user 1 owns. -/
theorem notfound_leaves_storage_unchanged_witness :
    (getChat sampleStore 1 = some ⟨1, 1, 1, "My chat"⟩ ∧
        (⟨1, 1, 1, "My chat"⟩ : Chat).userId ≠ (2 : Nat)) ∧
      postMessages sampleStore ⟨2, "bob"⟩ sampleBody (.ok (some "Hello!")) =
        (.notFound, sampleStore, []) :=
  ⟨⟨by decide, by decide⟩,
    notfound_leaves_storage_unchanged sampleStore ⟨2, "bob"⟩ sampleBody (.ok (some "Hello!"))
      (Or.inr ⟨⟨1, 1, 1, "My chat"⟩, by decide, by decide⟩)⟩

/-- Claim C4: on a valid owned chat, exactly one message with role `user`
and the submitted content is persisted before the completion client is
invoked (the handler then runs the completion phase on that extended
state), and the record is still present in the final state for every
completion outcome. Send-message requests carry role `user` (both client
call sites construct the body that way). -/
theorem user_message_persisted_before_completion (st : MemStorage) (u : User)
    (body : InsertMessage) (call : CompletionOutcome) (chat : Chat)
    (hchat : getChat st body.chatId = some chat)
    (hown : chat.userId = u.id)
    (hrole : body.role = "user") :
    ∃ m : Message,
      (createMessage st body).1 = m ∧
      (createMessage st body).2.messages = st.messages ++ [m] ∧
      m.role = "user" ∧
      m.content = body.content ∧
      postMessages st u body call =
        handleCompletion (createMessage st body).2 chat u m body call ∧
      m ∈ (postMessages st u body call).2.1.messages := by
  refine ⟨(createMessage st body).1, rfl, rfl, hrole, rfl,
    postMessages_valid st u body call chat hchat hown, ?_⟩
  rw [postMessages_valid st u body call chat hchat hown, handleCompletion_messages]
  simp [messages_createMessage]

/-- Witness for C4 at the sample store with a failing provider call. -/
theorem user_message_persisted_before_completion_witness :
    (getChat sampleStore 1 = some ⟨1, 1, 1, "My chat"⟩ ∧
        (⟨1, 1, 1, "My chat"⟩ : Chat).userId = sampleUser.id ∧ sampleBody.role = "user") ∧
      ∃ m : Message,
        (createMessage sampleStore sampleBody).1 = m ∧
        (createMessage sampleStore sampleBody).2.messages = sampleStore.messages ++ [m] ∧
        m.role = "user" ∧
        m.content = sampleBody.content ∧
        postMessages sampleStore sampleUser sampleBody (.failed "boom") =
          handleCompletion (createMessage sampleStore sampleBody).2 ⟨1, 1, 1, "My chat"⟩
            sampleUser m sampleBody (.failed "boom") ∧
        m ∈ (postMessages sampleStore sampleUser sampleBody (.failed "boom")).2.1.messages :=
  ⟨⟨by decide, by decide, by decide⟩,
    user_message_persisted_before_completion sampleStore sampleUser sampleBody (.failed "boom")
      ⟨1, 1, 1, "My chat"⟩ (by decide) (by decide) (by decide)⟩

/-- Claim C8: the `GET /api/logs` result is independent of the requesting
authenticated user - any two users receive the identical collection,
namely the whole stored log, so each user reads entries generated by
every other user's completion attempts. -/
theorem logs_endpoint_user_independent (st : MemStorage) (u1 u2 : User) :
    getLogsHandler st u1 = getLogsHandler st u2 ∧ getLogsHandler st u1 = getLogs st :=
  ⟨rfl, rfl⟩

/-- All ready connections except an excluded one receive a broadcast:
with nodup connection identities, every connection open and the excluded
one registered, exclusion delivers to N-1 connections. -/
theorem publishDeliveries_exclude_length (clients : List WsConn) (w : WsConn)
    (hnd : (clients.map WsConn.id).Nodup)
    (hopen : ∀ c ∈ clients, c.readyState = WS_OPEN)
    (hw : w ∈ clients) :
    (publishDeliveries clients (some w)).length = clients.length - 1 := by
  induction clients with
  | nil => cases hw
  | cons c cs ih =>
    simp only [List.map_cons, List.nodup_cons] at hnd
    obtain ⟨hcid, hnd'⟩ := hnd
    rcases List.mem_cons.mp hw with rfl | hwcs
    · have hdrop : publishDeliveries (w :: cs) (some w) = publishDeliveries cs (some w) := by
        simp [publishDeliveries]
      have hall : publishDeliveries cs (some w) = cs := by
        apply List.filter_eq_self.mpr
        intro x hx
        have hxid : x.id ≠ w.id := by
          intro h
          exact hcid (h ▸ List.mem_map_of_mem WsConn.id hx)
        simp [hxid, hopen x (List.mem_cons_of_mem w hx)]
      simp [hdrop, hall]
    · have hcw : c.id ≠ w.id := by
        intro h
        exact hcid (h ▸ List.mem_map_of_mem WsConn.id hwcs)
      have hrec := ih hnd' (fun x hx => hopen x (List.mem_cons_of_mem c hx)) hwcs
      have hpos : 1 ≤ cs.length := List.length_pos.mpr (List.ne_nil_of_mem hwcs)
      have hkeep : publishDeliveries (c :: cs) (some w) =
          c :: publishDeliveries cs (some w) := by
        simp [publishDeliveries, List.filter_cons, hcw, hopen c (List.mem_cons_self c cs)]
      rw [hkeep]
      simp only [List.length_cons, hrec]
      omega

/-- With every registered connection open, an unexcluded broadcast is
delivered to all of them. -/
theorem publishDeliveries_none_all_open (clients : List WsConn)
    (hopen : ∀ c ∈ clients, c.readyState = WS_OPEN) :
    publishDeliveries clients none = clients := by
  apply List.filter_eq_self.mpr
  intro x hx
  simp [hopen x hx]

/-- Claim C3: with N registered connections all open and distinct, a
publish excluding one of them delivers to exactly N-1 connections and an
unexcluded publish delivers to all N; a connection whose transport is not
open never appears among the deliveries of any publish - it is skipped,
with the publish total (no queueing, retry or error path exists). -/
theorem hub_publish_semantics :
    (∀ (clients : List WsConn) (w : WsConn),
        (clients.map WsConn.id).Nodup →
        (∀ c ∈ clients, c.readyState = WS_OPEN) →
        w ∈ clients →
        (publishDeliveries clients (some w)).length = clients.length - 1 ∧
          (publishDeliveries clients none).length = clients.length) ∧
      (∀ (clients : List WsConn) (ex : Option WsConn) (c : WsConn),
        c ∈ clients → c.readyState ≠ WS_OPEN → c ∉ publishDeliveries clients ex) := by
  constructor
  · intro clients w hnd hopen hw
    exact ⟨publishDeliveries_exclude_length clients w hnd hopen hw,
      by rw [publishDeliveries_none_all_open clients hopen]⟩
  · intro clients ex c _hc hns hmem
    simp only [publishDeliveries] at hmem
    have hp := (List.mem_filter.mp hmem).2
    simp only [Bool.and_eq_true, beq_iff_eq] at hp
    exact hns hp.2

/-- Witness for C3: three open connections, excluding one delivers to
two and no exclusion delivers to all three; a closed connection is never
among the deliveries. -/
theorem hub_publish_semantics_witness :
    ((publishDeliveries [⟨1, 1⟩, ⟨2, 1⟩, ⟨3, 1⟩] (some ⟨2, 1⟩)).length = 2 ∧
        (publishDeliveries [⟨1, 1⟩, ⟨2, 1⟩, ⟨3, 1⟩] none).length = 3) ∧
      (⟨2, 0⟩ : WsConn) ∉ publishDeliveries [⟨1, 1⟩, ⟨2, 0⟩] none :=
  ⟨hub_publish_semantics.1 [⟨1, 1⟩, ⟨2, 1⟩, ⟨3, 1⟩] ⟨2, 1⟩ (by decide) (by decide) (by decide),
    hub_publish_semantics.2 [⟨1, 1⟩, ⟨2, 0⟩] none ⟨2, 0⟩ (by decide) (by decide)⟩

/-- Claim C1 (code behavior at the failing input): on the sample valid
chat, when the provider call rejects, the code persists one assistant
message carrying the apology text (the claim says zero), appends one log
entry with status `success` (the claim says one `error` entry with the
failure detail), and publishes one `message` event (the claim says zero):
`generateResponse` swallows the rejection and returns the apology as a
normal completion, so the route's error branch never runs. -/
theorem completion_failure_code_behavior :
    ((postMessages sampleStore sampleUser sampleBody
          (.failed "connect ECONNREFUSED")).2.1.messages.filter
        (fun m => m.role == "assistant")).map Message.content = [apologyText] ∧
      (postMessages sampleStore sampleUser sampleBody
          (.failed "connect ECONNREFUSED")).2.1.logs.map InteractionLog.status = ["success"] ∧
      (postMessages sampleStore sampleUser sampleBody
          (.failed "connect ECONNREFUSED")).2.2.length = 1 := by
  decide

/-- Claim C2 (code behavior at the failing input): on the sample valid
chat, when the provider call rejects, the HTTP response still contains
both the user message and a persisted assistant message (the apology
text), not only the user message as the claim states. -/
theorem completion_failure_response_contains_both :
    (postMessages sampleStore sampleUser sampleBody (.failed "connect ECONNREFUSED")).1 =
      HttpResult.created
        [⟨1, 1, "user", "Hi", 0⟩, ⟨2, 1, "assistant", apologyText, 1⟩] := by
  decide

/-- Claim C5 counterexample: with the provider call succeeding with the
empty text, the code persists the placeholder `No response generated`
instead, so no assistant message with the returned content exists - the
claim as stated fails at T equal to the empty string. -/
theorem completion_empty_content_counterexample :
    ((postMessages sampleStore sampleUser sampleBody (.ok (some ""))).2.1.messages.filter
        (fun m => m.role == "assistant")).map Message.content = ["No response generated"] ∧
      ¬ ∃ am ∈ (postMessages sampleStore sampleUser sampleBody (.ok (some ""))).2.1.messages,
          am.role = "assistant" ∧ am.content = "" := by
  decide

/-- Claim C5 (amended): on a valid owned chat whose model and provider
records exist, if the provider call succeeds with nonempty text T then
exactly one assistant message with content T is persisted (after the user
message), exactly one `success` log entry recording T is appended, and
exactly one `message` event carrying the chat id and the new assistant
message is published. -/
theorem completion_success_effects (st : MemStorage) (u : User) (body : InsertMessage)
    (T : String) (chat : Chat) (model : AIModel) (provider : AIProvider)
    (hchat : getChat st body.chatId = some chat)
    (hown : chat.userId = u.id)
    (hmodel : getModel st chat.modelId = some model)
    (hprov : getProvider st model.providerId = some provider)
    (hT : T ≠ "") :
    ∃ um am : Message,
      (postMessages st u body (.ok (some T))).2.1.messages = st.messages ++ [um, am] ∧
      am.role = "assistant" ∧
      am.content = T ∧
      (∃ lg, (postMessages st u body (.ok (some T))).2.1.logs = st.logs ++ [lg] ∧
        lg.status = "success" ∧ lg.messageReceived = T) ∧
      (postMessages st u body (.ok (some T))).2.2 = [⟨"message", chat.id, am⟩] ∧
      (postMessages st u body (.ok (some T))).1 = .created [um, am] := by
  have hR : generateResponse (createMessage st body).2 (.ok (some T)) body.content
      chat.modelId = T := by
    simp only [generateResponse, getModel_createMessage, getProvider_createMessage,
      hmodel, hprov, jsStringOr]
    simp [hT]
  have key : postMessages st u body (.ok (some T)) =
      (.created [(createMessage st body).1,
          (createMessage (createMessage st body).2 ⟨chat.id, "assistant", T⟩).1],
        createLog (createMessage (createMessage st body).2 ⟨chat.id, "assistant", T⟩).2
          ⟨(createMessage (createMessage st body).2 ⟨chat.id, "assistant", T⟩).2.now,
            u.username, model.name, provider.baseUrl, chat.name, body.content, T,
            "success", none⟩,
        [⟨"message", chat.id,
          (createMessage (createMessage st body).2 ⟨chat.id, "assistant", T⟩).1⟩]) := by
    rw [postMessages_valid st u body (.ok (some T)) chat hchat hown,
      handleCompletion_eval _ _ _ _ _ _ model provider T hR hmodel hprov]
  refine ⟨(createMessage st body).1,
    (createMessage (createMessage st body).2 ⟨chat.id, "assistant", T⟩).1,
    ?_, rfl, rfl,
    ⟨⟨(createMessage (createMessage st body).2 ⟨chat.id, "assistant", T⟩).2.now,
        u.username, model.name, provider.baseUrl, chat.name, body.content, T,
        "success", none⟩, ?_, rfl, rfl⟩, ?_, ?_⟩
  · rw [key]
    simp [createMessage, createLog]
  · rw [key]
    rfl
  · rw [key]
  · rw [key]

/-- Witness for the amended C5 at the sample store with text `Hello!`. -/
theorem completion_success_effects_witness :
    ("Hello!" : String) ≠ "" ∧
      ∃ um am : Message,
        (postMessages sampleStore sampleUser sampleBody
            (.ok (some "Hello!"))).2.1.messages = sampleStore.messages ++ [um, am] ∧
        am.role = "assistant" ∧
        am.content = "Hello!" ∧
        (∃ lg, (postMessages sampleStore sampleUser sampleBody
              (.ok (some "Hello!"))).2.1.logs = sampleStore.logs ++ [lg] ∧
          lg.status = "success" ∧ lg.messageReceived = "Hello!") ∧
        (postMessages sampleStore sampleUser sampleBody (.ok (some "Hello!"))).2.2 =
          [⟨"message", (1 : Nat), am⟩] ∧
        (postMessages sampleStore sampleUser sampleBody (.ok (some "Hello!"))).1 =
          .created [um, am] :=
  ⟨by decide,
    completion_success_effects sampleStore sampleUser sampleBody "Hello!"
      ⟨1, 1, 1, "My chat"⟩ ⟨1, 1, "GPT-4o", "gpt-4o", false⟩
      ⟨1, 1, "openai", "https://api.openai.com/v1", "sk-secret-key-123", true⟩
      (by decide) (by decide) (by decide) (by decide) (by decide)⟩

end AIChat
